import Mathlib

/-!
Shallow embedding of the auto-runes client (`auto_runes_v2.py`).

The embedding models, faithfully to the Python source:
* the static name → id catalogs (`path_id_map`, `rune_id_map`);
* `RuneManager.find_rune_id` (exact lookup, then first fuzzy substring match
  in catalog declaration order);
* `RuneManager.load_rune_data_from_file` (validation of a raw scraped record
  into a stored 9-perk rune setup);
* `RuneManager.apply_runes_for_champion` (page selection and create-or-update
  against the remote perk-page store, with the remote's responses passed in
  explicitly);
* `LCUConnection.request` (404 / error-status / transport-failure handling);
* `ChampionSelectMonitor` (`on_champion_locked` and the websocket message
  handler), with the two synchronous LCU lookups and the apply/fetch results
  passed in as an environment.

Python truthiness of the values involved (`None`, `""` and `0` are falsy) is
modelled explicitly where the source relies on it.
-/

/-- Python truthiness of an optional string: `None` and `""` are falsy. -/
def pyTruthyStr : Option String → Bool
  | none => false
  | some s => !(s == "")

/-- Python `s.lower()`, as a map over the underlying char list (the source
only ever lowercases ASCII rune/champion names). -/
def pyLower (s : String) : String :=
  ⟨s.data.map Char.toLower⟩

/-- Python substring test `needle in hay`, on the underlying char lists. -/
def strContainsSub (hay needle : String) : Bool :=
  (List.range (hay.data.length + 1)).any (fun i => needle.data.isPrefixOf (hay.data.drop i))

/-- Python `hay.startswith(pre)`. -/
def strStartsWith (hay pre : String) : Bool :=
  pre.data.isPrefixOf hay.data

/-- `RuneManager.path_id_map`: rune path name → style id. -/
def path_id_map : List (String × Nat) :=
  [("Precision", 8000),
   ("Domination", 8100),
   ("Sorcery", 8200),
   ("Inspiration", 8300),
   ("Resolve", 8400)]

/-- `RuneManager.rune_id_map`: rune name → perk id, in declaration order
(a Python dict preserves insertion order, which the fuzzy scan relies on). -/
def rune_id_map : List (String × Nat) :=
  [("Press the Attack", 8005),
   ("Lethal Tempo", 8008),
   ("Fleet Footwork", 8021),
   ("Conqueror", 8010),
   ("Absorb Life", 9101),
   ("Triumph", 9111),
   ("Presence of Mind", 8009),
   ("Legend: Alacrity", 9104),
   ("Legend: Haste", 9105),
   ("Legend: Bloodline", 9103),
   ("Coup de Grace", 8014),
   ("Cut Down", 8017),
   ("Last Stand", 8299),
   ("Electrocute", 8112),
   ("Predator", 8124),
   ("Dark Harvest", 8128),
   ("Hail of Blades", 9923),
   ("Cheap Shot", 8126),
   ("Taste of Blood", 8139),
   ("Sudden Impact", 8143),
   ("Sixth Sense", 8137),
   ("Grisly Mementos", 8140),
   ("Deep Ward", 8141),
   ("Treasure Hunter", 8135),
   ("Relentless Hunter", 8105),
   ("Ultimate Hunter", 8106),
   ("Summon Aery", 8214),
   ("Arcane Comet", 8229),
   ("Phase Rush", 8230),
   ("Axiom Arcanist", 8224),
   ("Manaflow Band", 8226),
   ("Nimbus Cloak", 8275),
   ("Transcendence", 8210),
   ("Celerity", 8234),
   ("Absolute Focus", 8233),
   ("Scorch", 8237),
   ("Waterwalking", 8232),
   ("Gathering Storm", 8236),
   ("Grasp of the Undying", 8437),
   ("Aftershock", 8439),
   ("Guardian", 8465),
   ("Demolish", 8446),
   ("Font of Life", 8463),
   ("Shield Bash", 8401),
   ("Conditioning", 8429),
   ("Second Wind", 8444),
   ("Bone Plating", 8473),
   ("Overgrowth", 8451),
   ("Revitalize", 8453),
   ("Unflinching", 8242),
   ("Glacial Augment", 8351),
   ("Unsealed Spellbook", 8360),
   ("First Strike", 8369),
   ("Hextech Flashtraption", 8306),
   ("Magical Footwear", 8304),
   ("Cash Back", 8321),
   ("Triple Tonic", 8313),
   ("Time Warp Tonic", 8352),
   ("Biscuit Delivery", 8345),
   ("Cosmic Insight", 8347),
   ("Approach Velocity", 8410),
   ("Jack Of All Trades", 8316),
   ("Adaptive Force", 5008),
   ("Attack Speed", 5005),
   ("Ability Haste", 5007),
   ("Move Speed", 5010),
   ("Tenacity and Slow Resist", 5013),
   ("Health", 5011),
   ("Health Scaling", 5001)]

/-- The fuzzy-match condition of `RuneManager.find_rune_id`:
`known_name.lower() in rune_name.lower() or rune_name.lower() in known_name.lower()`. -/
def fuzzyMatch (known_name rune_name : String) : Bool :=
  strContainsSub (pyLower rune_name) (pyLower known_name) ||
    strContainsSub (pyLower known_name) (pyLower rune_name)

/-- The fuzzy-match `for` loop of `RuneManager.find_rune_id`: scan the
catalog in declaration order, return the first entry whose name matches. -/
def fuzzyScan : List (String × Nat) → String → Option Nat
  | [], _ => none
  | (k, v) :: rest, nm => if fuzzyMatch k nm then some v else fuzzyScan rest nm

/-- `RuneManager.find_rune_id`: exact (case-sensitive) dict lookup first,
then the fuzzy scan, then `None`. -/
def find_rune_id (rune_name : String) : Option Nat :=
  match rune_id_map.lookup rune_name with
  | some i => some i
  | none => fuzzyScan rune_id_map rune_name

/-- The value stored in `RuneManager.rune_data[champion]["auto"]`
("auto" is the only role the code ever writes or reads, so the inner
one-key dict is collapsed). -/
structure RuneSetup where
  primary_style : Nat
  sub_style : Nat
  selected_perks : List Nat
deriving DecidableEq

/-- The mutable fields of `RuneManager`: the per-champion rune data
(a dict, modelled as an association list) and `current_page_id`. -/
structure RMState where
  rune_data : List (String × RuneSetup)
  current_page_id : Option Nat
deriving DecidableEq

/-- Python dict assignment `rune_data[champ] = s` (replaces any earlier
entry; only lookups are ever performed on the dict, so the relative order
of other keys is irrelevant). -/
def insertRuneData (rd : List (String × RuneSetup)) (champ : String) (s : RuneSetup) :
    List (String × RuneSetup) :=
  (champ, s) :: rd.filter (fun e => !(e.1 == champ))

/-- One resolution loop of `load_rune_data_from_file`:
`for name in names: rid = find_rune_id(name); if rid: append(rid)`
(Python truthiness: `None` and `0` are both dropped). -/
def resolvedIds : List String → List Nat
  | [] => []
  | nm :: rest =>
    match find_rune_id nm with
    | some i => if i == 0 then resolvedIds rest else i :: resolvedIds rest
    | none => resolvedIds rest

/-- The raw scraped record read from `rune_data.json`
(`scraped_data.get("champion", "")` defaults to `""`, so `champion` is a
plain string; the other scalar fields distinguish a missing key). -/
structure ScrapedData where
  champion : String
  primary_path : Option String
  secondary_path : Option String
  keystone : Option String
  primary_runes : List String
  secondary_runes : List String
  stat_shards : List String

/-- `RuneManager.load_rune_data_from_file`. `fileData` is the parsed content
of `rune_data.json` (`none` models a missing file, and also an unreadable
one — the enclosing `except` returns `False` either way). Returns the new
manager state and the boolean result. -/
def load_rune_data_from_file (rm : RMState) (fileData : Option ScrapedData)
    (champion_name : String) : RMState × Bool :=
  match fileData with
  | none => (rm, false)
  | some sd =>
    if !(pyLower sd.champion == pyLower champion_name) then (rm, false)
    else
      match sd.primary_path, sd.secondary_path with
      | some pp, some sp =>
        if (pp == "") || (sp == "") then (rm, false)
        else
          let primary_style_id := (path_id_map.lookup pp).getD 8000
          let secondary_style_id := (path_id_map.lookup sp).getD 8400
          match sd.keystone with
          | none => (rm, false)
          | some kn =>
            if kn == "" then (rm, false)
            else
              match find_rune_id kn with
              | none => (rm, false)
              | some kid =>
                if kid == 0 then (rm, false)
                else
                  let selected_perks :=
                    kid :: (resolvedIds sd.primary_runes ++
                      resolvedIds sd.secondary_runes ++ resolvedIds sd.stat_shards)
                  if !(selected_perks.length == 9) then (rm, false)
                  else
                    let setup := RuneSetup.mk primary_style_id secondary_style_id selected_perks
                    ({ rm with rune_data := insertRuneData rm.rune_data champion_name setup }, true)
      | _, _ => (rm, false)

/-- A JSON object response, reduced to the fields the code inspects
(string keys with numeric values; `[]` models the empty object `{}`,
which is falsy in Python). -/
def Json : Type := List (String × Nat)

instance : DecidableEq Json :=
  inferInstanceAs (DecidableEq (List (String × Nat)))

/-- One entry of the `GET /lol-perks/v1/pages` response, reduced to the two
fields the code reads. -/
structure Page where
  id : Nat
  name : String
deriving DecidableEq

/-- The remote side of one `apply_runes_for_champion` call: the responses the
LCU returns for the (at most two) requests the function can issue. `putResp`
is indexed by the page id in the PUT url. `none` is a null response. -/
structure Remote where
  getPagesResp : Option (List Page)
  putResp : Nat → Option Json
  postResp : Option Json

/-- Which write request `apply_runes_for_champion` issued, and with which
page name in the body (`noRequest` = it failed before the write step). -/
inductive ApplyStep where
  | noRequest
  | put (pageId : Nat) (name : String)
  | post (name : String)
deriving DecidableEq

/-- The page name `apply_runes_for_champion` sends:
`f"[AUTO] {champion_name} - {role}"` with `role = "auto"`. -/
def autoPageName (champion_name : String) : String :=
  "[AUTO] " ++ champion_name ++ " - auto"

/-- `RuneManager.apply_runes_for_champion`. `fetchOutcome` abstracts
`fetch_runes_for_champion`: `none` means the fetch returned `False` (storing
nothing), `some s` means it returned `True` having stored `s` for the
champion (`fetch` returns exactly `load_rune_data_from_file`'s result, which
stores iff it returns `True`). Returns the new manager state, the boolean
result, and the write request issued. -/
def apply_runes_for_champion (rm : RMState) (fetchOutcome : Option RuneSetup)
    (remote : Remote) (champion_name : String) : RMState × Bool × ApplyStep :=
  let fetched : RMState × Option RuneSetup :=
    match rm.rune_data.lookup champion_name with
    | some s => (rm, some s)
    | none =>
      match fetchOutcome with
      | none => (rm, none)
      | some s => ({ rm with rune_data := insertRuneData rm.rune_data champion_name s }, some s)
  match fetched with
  | (rm, none) => (rm, false, ApplyStep.noRequest)
  | (rm, some rune_setup) =>
    if rune_setup.primary_style == 0 || rune_setup.sub_style == 0 then
      (rm, false, ApplyStep.noRequest)
    else if !(rune_setup.selected_perks.length == 9) then
      (rm, false, ApplyStep.noRequest)
    else
      let pages := remote.getPagesResp.getD []
      match pages with
      | p0 :: _ =>
        let auto_rune_page := pages.find? (fun p => strStartsWith p.name "[AUTO]")
        let page_id := (auto_rune_page.getD p0).id
        match remote.putResp page_id with
        | some _ => (rm, true, ApplyStep.put page_id (autoPageName champion_name))
        | none => (rm, false, ApplyStep.put page_id (autoPageName champion_name))
      | [] =>
        match remote.postResp with
        | some result =>
          if (result != []) && (result.lookup "id").isSome then
            ({ rm with current_page_id := result.lookup "id" }, true,
              ApplyStep.post (autoPageName champion_name))
          else
            (rm, false, ApplyStep.post (autoPageName champion_name))
        | none => (rm, false, ApplyStep.post (autoPageName champion_name))

/-- The outcome of the single HTTP exchange inside `LCUConnection.request`:
a non-error response with an optional body, a 404, a non-404 error status
(`raise_for_status` fires), or a transport failure raising
`RequestException`. -/
inductive HttpOutcome where
  | ok (body : Option Json)
  | notFound
  | errorStatus
  | transportFail
deriving DecidableEq

/-- What one `LCUConnection.request` call did: the connected flag afterwards,
the value returned, and how many HTTP calls were issued. -/
structure RequestResult where
  connected : Bool
  result : Option Json
  callsMade : Nat
deriving DecidableEq

/-- `LCUConnection.request`. `connected` is the flag on entry, `discoverOk`
abstracts `find_league_client` (whether a client would be found when the
flag is down), and `outcome` is the result of the one HTTP exchange.
An empty response body yields `{}` (modelled `[]`); a 404 yields `None`
without touching the flag; an error status or transport failure clears the
flag and yields `None`. -/
def LCUrequest (connected discoverOk : Bool) (outcome : HttpOutcome) : RequestResult :=
  if !connected && !discoverOk then
    ⟨false, none, 0⟩
  else
    match outcome with
    | HttpOutcome.ok body => ⟨true, some (body.getD []), 1⟩
    | HttpOutcome.notFound => ⟨true, none, 1⟩
    | HttpOutcome.errorStatus => ⟨false, none, 1⟩
    | HttpOutcome.transportFail => ⟨false, none, 1⟩

/-- One element of a champion-select `actions` group, reduced to the fields
the handler reads. `championId = 0` models both a missing and a zero
champion id (the code treats them alike: `not champion_id or champion_id == 0`). -/
structure SessionAction where
  actorCellId : Nat
  championId : Nat
  id : Nat
  completed : Bool
deriving DecidableEq

/-- One element of the session's `myTeam` list. -/
structure TeamMember where
  summonerId : Nat
  cellId : Nat
deriving DecidableEq

/-- The champion-select session payload (`message[2]["data"]`), reduced to
the fields the handler reads. `phase` is `data["timer"]["phase"]`. -/
structure SessionData where
  phase : Option String
  myTeam : List TeamMember
  actions : List (List SessionAction)
deriving DecidableEq

/-- A delivered websocket message: `malformed` models `len(message) < 3`;
otherwise the event's uri and its (possibly empty/missing, `none`) data. -/
inductive WsMessage where
  | malformed
  | event (uri : String) (data : Option SessionData)
deriving DecidableEq

/-- The two synchronous LCU lookups the handler performs. `currentSummoner`
is the `summonerId` of `GET /lol-summoner/v1/current-summoner` (`none` when
the response is null/falsy), and `championName i` is the `name` field of the
champion-inventory lookup for champion id `i` (`none` when the response is
null or has no name). -/
structure LcuEnv where
  currentSummoner : Option Nat
  championName : Nat → Option String

/-- Results of the rune-manager calls made inside `on_champion_locked`:
`applyOk c` is `apply_runes_for_champion(c)`'s result and `fetchOk c` is
`fetch_runes_for_champion(c)`'s result (the monitor's own state does not
depend on these values). -/
structure ApplyEnv where
  applyOk : String → Bool
  fetchOk : String → Bool

/-- The mutable fields of `ChampionSelectMonitor`; the processed-action-id
set is modelled as a list (ids are only added when absent). -/
structure MonState where
  current_champion : Option String
  current_phase : Option String
  processed_action_ids : List Nat
deriving DecidableEq

/-- One guarded invocation of the apply path in `on_champion_locked`:
the champion and action id it fired for, and how many
`apply_runes_for_champion` calls it made (2 when the first failed and the
re-fetch succeeded). -/
structure HandlerRun where
  champ : String
  aid : Nat
  attempts : Nat
deriving DecidableEq

/-- `ChampionSelectMonitor.on_champion_locked`: skip if the action id was
already processed, otherwise record it and apply (with one re-fetch-and-
reapply on failure). Returns the new state and the run, if any. -/
def on_champion_locked (env : ApplyEnv) (s : MonState) (champion_name : String)
    (action_id : Nat) : MonState × Option HandlerRun :=
  if s.processed_action_ids.contains action_id then (s, none)
  else
    let s1 := { s with processed_action_ids := action_id :: s.processed_action_ids }
    if env.applyOk champion_name then (s1, some ⟨champion_name, action_id, 1⟩)
    else if env.fetchOk champion_name then (s1, some ⟨champion_name, action_id, 2⟩)
    else (s1, some ⟨champion_name, action_id, 1⟩)

/-- The action loop of `handle_ws_message` (`for action_group in actions:
for action in action_group:`), with the groups already flattened in order.
Threads the monitor state through the actions and collects the runs. -/
def processActions (lcu : LcuEnv) (env : ApplyEnv) (local_cell : Nat) :
    MonState → List SessionAction → MonState × List HandlerRun
  | s, [] => (s, [])
  | s, a :: rest =>
    if a.actorCellId == local_cell then
      if a.championId == 0 then processActions lcu env local_cell s rest
      else
        match lcu.championName a.championId with
        | none => processActions lcu env local_cell s rest
        | some champion_name =>
          if champion_name == "" then processActions lcu env local_cell s rest
          else
            let s1 :=
              if !(some champion_name == s.current_champion) then
                { s with current_champion := some champion_name, processed_action_ids := [] }
              else s
            if a.completed && !(s1.processed_action_ids.contains a.id) then
              let r := on_champion_locked env s1 champion_name a.id
              let rec2 := processActions lcu env local_cell r.1 rest
              (rec2.1, r.2.toList ++ rec2.2)
            else processActions lcu env local_cell s1 rest
    else processActions lcu env local_cell s rest

/-- The part of `handle_ws_message` after the phase-tracking block
(`if not data or not self.current_phase: return` onwards). -/
def afterPhase (lcu : LcuEnv) (env : ApplyEnv) (s : MonState) (data? : Option SessionData) :
    MonState × List HandlerRun :=
  match data? with
  | none => (s, [])
  | some data =>
    if !(pyTruthyStr s.current_phase) then (s, [])
    else
      match lcu.currentSummoner with
      | none => (s, [])
      | some local_player_id =>
        match data.myTeam.find? (fun p => p.summonerId == local_player_id) with
        | none => (s, [])
        | some member => processActions lcu env member.cellId s data.actions.flatten

/-- The websocket callback `handle_ws_message` defined inside
`ChampionSelectMonitor.start`. -/
def handle_ws_message (lcu : LcuEnv) (env : ApplyEnv) (s : MonState) (m : WsMessage) :
    MonState × List HandlerRun :=
  match m with
  | WsMessage.malformed => (s, [])
  | WsMessage.event uri data? =>
    if !(uri == "/lol-champ-select/v1/session") then (s, [])
    else
      let phase? := data?.bind (fun d => d.phase)
      if pyTruthyStr phase? && !(phase? == s.current_phase) then
        let s1 := { s with current_phase := phase? }
        if phase? == some "None" then
          ({ s1 with current_champion := none, processed_action_ids := [] }, [])
        else afterPhase lcu env s1 data?
      else afterPhase lcu env s data?

/-- Sequential delivery of a list of websocket messages to the handler,
threading the monitor state and concatenating the runs. -/
def processMessages (lcu : LcuEnv) (env : ApplyEnv) :
    MonState → List WsMessage → MonState × List HandlerRun
  | s, [] => (s, [])
  | s, m :: ms =>
    let r1 := handle_ws_message lcu env s m
    let r2 := processMessages lcu env r1.1 ms
    (r2.1, r1.2 ++ r2.2)

/-- The uri the handler filters on. -/
def sessionUri : String := "/lol-champ-select/v1/session"

/-- A canonical in-session message in which the local player's completed
pick action for champion id `cid` with action id `aid` is visible. -/
def lockMsg (p : String) (sid cell cid aid : Nat) : WsMessage :=
  WsMessage.event sessionUri
    (some ⟨some p, [⟨sid, cell⟩], [[⟨cell, cid, aid, true⟩]]⟩)

/-- The freshly constructed monitor state (`current_champion = None`,
`current_phase = None`, empty processed set). -/
def initMonState : MonState := ⟨none, none, []⟩

def c9record : ScrapedData :=
  ⟨"X", some "Domination", some "Resolve", some "Electrocute",
   ["Cheap Shot", "Sudden Impact", "Treasure Hunter"],
   ["Second Wind", "Bone Plating"],
   ["Adaptive Force", "Adaptive Force", "Health"]⟩

/-- The selection-id list the spec prescribes for a record with resolved
keystone id `kid`: keystone first, then the resolvable primary, secondary
and stat-shard names in input order (unresolvable ones dropped). Stated
from the spec's words, for comparison with what the code stores. -/
def specResolvedIds (sd : ScrapedData) (kid : Nat) : List Nat :=
  kid :: (sd.primary_runes.filterMap find_rune_id ++
    sd.secondary_runes.filterMap find_rune_id ++ sd.stat_shards.filterMap find_rune_id)

/-- A valid stored rune setup, used as a concrete input in witnesses. -/
def presetNine : RuneSetup :=
  ⟨8100, 8400, [8112, 8126, 8143, 8135, 8444, 8473, 5008, 5008, 5011]⟩

/-- The run record `on_champion_locked` produces when its guard passes:
one apply attempt, or two when the first failed and the re-fetch succeeded. -/
def mkRun (env : ApplyEnv) (cn : String) (aid : Nat) : HandlerRun :=
  if env.applyOk cn then ⟨cn, aid, 1⟩
  else if env.fetchOk cn then ⟨cn, aid, 2⟩
  else ⟨cn, aid, 1⟩

/-- Concrete LCU lookup environment for witnesses: the local summoner has id
1 and champion id 42 is named Ahri. -/
def lcuW : LcuEnv := ⟨some 1, fun i => if i == 42 then some "Ahri" else none⟩

/-- Concrete apply environment whose apply calls succeed. -/
def envW : ApplyEnv := ⟨fun _ => true, fun _ => true⟩

/-- Concrete apply environment whose apply and fetch calls all fail. -/
def envWF : ApplyEnv := ⟨fun _ => false, fun _ => false⟩

/-! ### Helper lemmas about the catalog and the resolver -/

lemma rune_id_map_vals_ne_zero : ∀ e ∈ rune_id_map, e.2 ≠ 0 := by decide

lemma lookup_val_ne_zero {l : List (String × Nat)} (hl : ∀ e ∈ l, e.2 ≠ 0)
    {nm : String} {i : Nat} (h : l.lookup nm = some i) : i ≠ 0 := by
  rcases List.lookup_eq_some_iff.mp h with ⟨l₁, l₂, rfl, -⟩
  exact hl (nm, i) (by simp)

lemma fuzzyScan_val_ne_zero {l : List (String × Nat)} (hl : ∀ e ∈ l, e.2 ≠ 0)
    {nm : String} {i : Nat} (h : fuzzyScan l nm = some i) : i ≠ 0 := by
  induction l with
  | nil => simp [fuzzyScan] at h
  | cons e rest ih =>
    rcases e with ⟨k, v⟩
    rw [fuzzyScan] at h
    split at h
    · cases h; exact hl (k, i) (by simp)
    · exact ih (fun e he => hl e (List.mem_cons_of_mem _ he)) h

lemma find_rune_id_ne_zero {nm : String} {i : Nat} (h : find_rune_id nm = some i) :
    i ≠ 0 := by
  rw [find_rune_id] at h
  cases hl : rune_id_map.lookup nm with
  | some j =>
    rw [hl] at h
    cases h
    exact lookup_val_ne_zero rune_id_map_vals_ne_zero hl
  | none =>
    rw [hl] at h
    exact fuzzyScan_val_ne_zero rune_id_map_vals_ne_zero h

lemma resolvedIds_eq_filterMap (ns : List String) :
    resolvedIds ns = ns.filterMap find_rune_id := by
  induction ns with
  | nil => rfl
  | cons nm rest ih =>
    rw [resolvedIds, List.filterMap_cons]
    cases hf : find_rune_id nm with
    | none => simpa using ih
    | some i =>
      have h0 : (i == 0) = false := beq_eq_false_iff_ne.mpr (find_rune_id_ne_zero hf)
      simp [h0, ih]

lemma fuzzyScan_eq_none_iff (l : List (String × Nat)) (nm : String) :
    fuzzyScan l nm = none ↔ ∀ e ∈ l, fuzzyMatch e.1 nm = false := by
  induction l with
  | nil => simp [fuzzyScan]
  | cons e rest ih =>
    rcases e with ⟨k, v⟩
    by_cases hf : fuzzyMatch k nm = true
    · simp [fuzzyScan, hf]
    · have hf' : fuzzyMatch k nm = false := by simpa using hf
      simp [fuzzyScan, hf', ih]

lemma fuzzyScan_first (l₁ l₂ : List (String × Nat)) (e : String × Nat) (nm : String)
    (h₁ : ∀ e' ∈ l₁, fuzzyMatch e'.1 nm = false) (he : fuzzyMatch e.1 nm = true) :
    fuzzyScan (l₁ ++ e :: l₂) nm = some e.2 := by
  induction l₁ with
  | nil =>
    rcases e with ⟨k, v⟩
    simp only at he
    simp [fuzzyScan, he]
  | cons e' rest ih =>
    have h0 : fuzzyMatch e'.1 nm = false := h₁ e' (by simp)
    rcases e' with ⟨k', v'⟩
    simp only at h0
    rw [List.cons_append, fuzzyScan, h0]
    simp only [Bool.false_eq_true, if_false]
    exact ih (fun x hx => h₁ x (List.mem_cons_of_mem _ hx))

/-! ### Claim theorems: resolver and validation -/

/-- C7: `find_rune_id` tries an exact case-sensitive catalog lookup first
(so an exact match always wins over any fuzzy candidate); when that fails it
scans the catalog in declaration order and returns the id of the first entry
where either lowercased string contains the other (ties go to the
earliest-declared entry); it returns `none` exactly when no entry matches
either way. -/
theorem c7_find_rune_id_policy (rune_name : String) :
    (∀ i, rune_id_map.lookup rune_name = some i → find_rune_id rune_name = some i) ∧
    (∀ l₁ e l₂, rune_id_map = l₁ ++ e :: l₂ → rune_id_map.lookup rune_name = none →
      fuzzyMatch e.1 rune_name = true → (∀ e' ∈ l₁, fuzzyMatch e'.1 rune_name = false) →
      find_rune_id rune_name = some e.2) ∧
    (find_rune_id rune_name = none ↔
      (rune_id_map.lookup rune_name = none ∧
        ∀ e ∈ rune_id_map, fuzzyMatch e.1 rune_name = false)) := by
  refine ⟨?_, ?_, ?_⟩
  · intro i h
    rw [find_rune_id, h]
  · intro l₁ e l₂ hsplit hnone hmatch hpre
    rw [find_rune_id, hnone, hsplit]
    exact fuzzyScan_first l₁ l₂ e rune_name hpre hmatch
  · rw [find_rune_id]
    cases hl : rune_id_map.lookup rune_name with
    | some i => simp [hl]
    | none => simp [hl, fuzzyScan_eq_none_iff]

theorem c7_witness :
    rune_id_map.lookup "Electrocute" = some 8112 ∧ find_rune_id "Electrocute" = some 8112 :=
  ⟨by decide, (c7_find_rune_id_policy "Electrocute").1 8112 (by decide)⟩

/-- C2: on a raw record whose champion matches, whose primary and secondary
group names are present, and whose keystone resolves,
`load_rune_data_from_file` succeeds iff the resolved ids number exactly 9;
on success it stores keystone id, then the resolved primary, secondary and
stat-shard ids in input order (unresolvable non-keystone names dropped), and
on any other count it returns `false` and stores nothing. -/
theorem c2_validate_exactly_nine (rm : RMState) (champion_name : String) (sd : ScrapedData)
    (pp sp kn : String) (kid : Nat)
    (hch : pyLower sd.champion = pyLower champion_name)
    (hpp : sd.primary_path = some pp) (hpp' : pp ≠ "")
    (hsp : sd.secondary_path = some sp) (hsp' : sp ≠ "")
    (hkn : sd.keystone = some kn) (hkn' : kn ≠ "")
    (hkid : find_rune_id kn = some kid) :
    ((load_rune_data_from_file rm (some sd) champion_name).2 = true ↔
      (specResolvedIds sd kid).length = 9) ∧
    ((specResolvedIds sd kid).length = 9 →
      load_rune_data_from_file rm (some sd) champion_name =
        (RMState.mk (insertRuneData rm.rune_data champion_name
          (RuneSetup.mk ((path_id_map.lookup pp).getD 8000)
            ((path_id_map.lookup sp).getD 8400) (specResolvedIds sd kid)))
          rm.current_page_id, true)) ∧
    ((specResolvedIds sd kid).length ≠ 9 →
      load_rune_data_from_file rm (some sd) champion_name = (rm, false)) := by
  have hch' : (pyLower sd.champion == pyLower champion_name) = true := beq_iff_eq.mpr hch
  have hpp'' : (pp == "") = false := beq_eq_false_iff_ne.mpr hpp'
  have hsp'' : (sp == "") = false := beq_eq_false_iff_ne.mpr hsp'
  have hkn'' : (kn == "") = false := beq_eq_false_iff_ne.mpr hkn'
  have hkid0 : (kid == 0) = false := beq_eq_false_iff_ne.mpr (find_rune_id_ne_zero hkid)
  by_cases hlen : (specResolvedIds sd kid).length = 9
  · have hlen' : (sd.primary_runes.filterMap find_rune_id).length +
        ((sd.secondary_runes.filterMap find_rune_id).length +
          (sd.stat_shards.filterMap find_rune_id).length) = 8 := by
      simp only [specResolvedIds, List.length_cons, List.length_append] at hlen
      omega
    simp [load_rune_data_from_file, specResolvedIds, hch', hpp, hsp, hkn, hpp'', hsp'',
      hkn'', hkid, hkid0, resolvedIds_eq_filterMap, hlen']
  · have hlen' : ¬((sd.primary_runes.filterMap find_rune_id).length +
        ((sd.secondary_runes.filterMap find_rune_id).length +
          (sd.stat_shards.filterMap find_rune_id).length) = 8) := by
      simp only [specResolvedIds, List.length_cons, List.length_append] at hlen
      omega
    simp [load_rune_data_from_file, specResolvedIds, hch', hpp, hsp, hkn, hpp'', hsp'',
      hkn'', hkid, hkid0, resolvedIds_eq_filterMap, hlen']

theorem c2_witness :
    pyLower (c9record.champion) = pyLower "X" ∧
    c9record.primary_path = some "Domination" ∧
    c9record.secondary_path = some "Resolve" ∧
    c9record.keystone = some "Electrocute" ∧
    find_rune_id "Electrocute" = some 8112 ∧
    ((load_rune_data_from_file ⟨[], none⟩ (some c9record) "X").2 = true ↔
      (specResolvedIds c9record 8112).length = 9) :=
  ⟨by decide, by decide, by decide, by decide, by decide,
    (c2_validate_exactly_nine ⟨[], none⟩ "X" c9record "Domination" "Resolve" "Electrocute" 8112
      (by decide) (by decide) (by decide) (by decide) (by decide) (by decide) (by decide)
      (by decide)).1⟩

/-- C9: the concrete raw record with primary path Domination, secondary path
Resolve, keystone Electrocute, the given primary/secondary runes and stat
shards validates to primary group id 8100, secondary group id 8400 and the
selection ids [8112, 8126, 8143, 8135, 8444, 8473, 5008, 5008, 5011], in
that order. -/
theorem c9_concrete_scenario :
    load_rune_data_from_file ⟨[], none⟩ (some c9record) "X" =
      (⟨[("X", ⟨8100, 8400, [8112, 8126, 8143, 8135, 8444, 8473, 5008, 5008, 5011]⟩)],
        none⟩, true) := by
  decide

/-! ### Helper lemmas about the applicator -/

lemma autoPageName_startsWith (s : String) :
    strStartsWith (autoPageName s) "[AUTO]" = true := by
  have h1 : (autoPageName s).data = "[AUTO] ".data ++ (s.data ++ " - auto".data) := by
    simp [autoPageName]
  rw [strStartsWith, h1, List.isPrefixOf_iff_prefix]
  have h2 : "[AUTO]".data <+: "[AUTO] ".data := by decide
  exact h2.trans ⟨_, rfl⟩

lemma apply_pages_nonempty (rm : RMState) (fo : Option RuneSetup) (r : Remote)
    (champ : String) (setup : RuneSetup) (p0 : Page) (rest : List Page)
    (hlk : rm.rune_data.lookup champ = some setup)
    (hps : setup.primary_style ≠ 0) (hss : setup.sub_style ≠ 0)
    (hlen : setup.selected_perks.length = 9)
    (hpages : r.getPagesResp.getD [] = p0 :: rest) :
    apply_runes_for_champion rm fo r champ =
      (rm,
       (r.putResp (((p0 :: rest).find? (fun p => strStartsWith p.name "[AUTO]")).getD p0).id).isSome,
       ApplyStep.put (((p0 :: rest).find? (fun p => strStartsWith p.name "[AUTO]")).getD p0).id
         (autoPageName champ)) := by
  have hps' : (setup.primary_style == 0) = false := beq_eq_false_iff_ne.mpr hps
  have hss' : (setup.sub_style == 0) = false := beq_eq_false_iff_ne.mpr hss
  simp only [apply_runes_for_champion, hlk, hps', hss', Bool.or_self, Bool.false_or,
    hlen, hpages]
  cases hput : r.putResp (((p0 :: rest).find? (fun p => strStartsWith p.name "[AUTO]")).getD p0).id with
  | some v => simp [hput]
  | none => simp [hput]

lemma apply_pages_empty (rm : RMState) (fo : Option RuneSetup) (r : Remote)
    (champ : String) (setup : RuneSetup)
    (hlk : rm.rune_data.lookup champ = some setup)
    (hps : setup.primary_style ≠ 0) (hss : setup.sub_style ≠ 0)
    (hlen : setup.selected_perks.length = 9)
    (hpages : r.getPagesResp.getD [] = []) :
    apply_runes_for_champion rm fo r champ =
      match r.postResp with
      | some result =>
        if (result != []) && (result.lookup "id").isSome then
          (RMState.mk rm.rune_data (result.lookup "id"), true, ApplyStep.post (autoPageName champ))
        else (rm, false, ApplyStep.post (autoPageName champ))
      | none => (rm, false, ApplyStep.post (autoPageName champ)) := by
  have hps' : (setup.primary_style == 0) = false := beq_eq_false_iff_ne.mpr hps
  have hss' : (setup.sub_style == 0) = false := beq_eq_false_iff_ne.mpr hss
  simp only [apply_runes_for_champion, hlk, hps', hss', Bool.or_self, Bool.false_or,
    hlen, hpages]
  cases hpost : r.postResp with
  | some result => simp [hpost]
  | none => simp [hpost]

/-! ### Claim theorems: applicator -/

/-- C5: when the pages list is non-empty and contains a page whose name
starts with "[AUTO]", the update is issued against the first such tagged
page; when no page is tagged it falls back to the first page; and with a
non-empty list it never issues a create. -/
theorem c5_tagged_page_update (rm : RMState) (fo : Option RuneSetup) (r : Remote)
    (champ : String) (setup : RuneSetup) (p0 : Page) (rest : List Page)
    (hlk : rm.rune_data.lookup champ = some setup)
    (hps : setup.primary_style ≠ 0) (hss : setup.sub_style ≠ 0)
    (hlen : setup.selected_perks.length = 9)
    (hpages : r.getPagesResp.getD [] = p0 :: rest) :
    (∀ pre q post, p0 :: rest = pre ++ q :: post →
      strStartsWith q.name "[AUTO]" = true →
      (∀ q' ∈ pre, strStartsWith q'.name "[AUTO]" = false) →
      (apply_runes_for_champion rm fo r champ).2.2 =
        ApplyStep.put q.id (autoPageName champ)) ∧
    ((∀ q ∈ p0 :: rest, strStartsWith q.name "[AUTO]" = false) →
      (apply_runes_for_champion rm fo r champ).2.2 =
        ApplyStep.put p0.id (autoPageName champ)) ∧
    (∀ nm, (apply_runes_for_champion rm fo r champ).2.2 ≠ ApplyStep.post nm) := by
  rw [apply_pages_nonempty rm fo r champ setup p0 rest hlk hps hss hlen hpages]
  refine ⟨?_, ?_, ?_⟩
  · intro pre q post hsplit htag hpre
    have hfind : (p0 :: rest).find? (fun p => strStartsWith p.name "[AUTO]") = some q := by
      rw [hsplit, List.find?_append]
      have h1 : pre.find? (fun p => strStartsWith p.name "[AUTO]") = none :=
        List.find?_eq_none.mpr (fun x hx => by simp [hpre x hx])
      rw [h1]
      simp [htag]
    simp [hfind]
  · intro hall
    have hfind : (p0 :: rest).find? (fun p => strStartsWith p.name "[AUTO]") = none :=
      List.find?_eq_none.mpr (fun x hx => by simp [hall x hx])
    simp [hfind]
  · intro nm
    simp

theorem c5_witness :
    (apply_runes_for_champion ⟨[("Ahri", presetNine)], none⟩ none
      ⟨some [⟨5, "my page"⟩, ⟨6, "[AUTO] Ahri - auto"⟩], fun _ => some [], none⟩ "Ahri").2.2 =
      ApplyStep.put 6 (autoPageName "Ahri") :=
  (c5_tagged_page_update ⟨[("Ahri", presetNine)], none⟩ none
      ⟨some [⟨5, "my page"⟩, ⟨6, "[AUTO] Ahri - auto"⟩], fun _ => some [], none⟩ "Ahri"
      presetNine ⟨5, "my page"⟩ [⟨6, "[AUTO] Ahri - auto"⟩]
      (by decide) (by decide) (by decide) (by decide) (by decide)).1
    [⟨5, "my page"⟩] ⟨6, "[AUTO] Ahri - auto"⟩ [] rfl (by decide)
    (by intro q' hq'; simp at hq'; subst hq'; decide)

/-- C4: with an empty remote pages list, apply creates a page and records
the created page's id in `current_page_id`; a subsequent apply call for the
same champion, once the remote list shows that created page, updates that
same page id (an update request, not another create). -/
theorem c4_create_then_update (rm : RMState) (r1 r2 : Remote) (champ : String)
    (setup : RuneSetup) (n : Nat) (j : Json)
    (hlk : rm.rune_data.lookup champ = some setup)
    (hps : setup.primary_style ≠ 0) (hss : setup.sub_style ≠ 0)
    (hlen : setup.selected_perks.length = 9)
    (hp1 : r1.getPagesResp.getD [] = [])
    (hpost : r1.postResp = some j) (hj : j.lookup "id" = some n)
    (hp2 : r2.getPagesResp.getD [] = [Page.mk n (autoPageName champ)]) :
    (apply_runes_for_champion rm none r1 champ).2.1 = true ∧
    (apply_runes_for_champion rm none r1 champ).2.2 = ApplyStep.post (autoPageName champ) ∧
    (apply_runes_for_champion rm none r1 champ).1.current_page_id = some n ∧
    (apply_runes_for_champion (apply_runes_for_champion rm none r1 champ).1 none r2 champ).2.2 =
      ApplyStep.put n (autoPageName champ) := by
  have hjne : (j != []) = true := by
    cases j with
    | nil => simp at hj
    | cons a l => rfl
  have h1 : apply_runes_for_champion rm none r1 champ =
      (RMState.mk rm.rune_data (some n), true, ApplyStep.post (autoPageName champ)) := by
    rw [apply_pages_empty rm none r1 champ setup hlk hps hss hlen hp1, hpost]
    simp [hj, hjne]
  refine ⟨by rw [h1], by rw [h1], by rw [h1], ?_⟩
  rw [h1]
  have hlk2 : (RMState.mk rm.rune_data (some n)).rune_data.lookup champ = some setup := hlk
  rw [apply_pages_nonempty (RMState.mk rm.rune_data (some n)) none r2 champ setup
    (Page.mk n (autoPageName champ)) [] hlk2 hps hss hlen hp2]
  simp [autoPageName_startsWith]

theorem c4_witness :
    (apply_runes_for_champion ⟨[("Ahri", presetNine)], none⟩ none
      ⟨some [], fun _ => none, some [("id", 33)]⟩ "Ahri").1.current_page_id = some 33 ∧
    (apply_runes_for_champion
      (apply_runes_for_champion ⟨[("Ahri", presetNine)], none⟩ none
        ⟨some [], fun _ => none, some [("id", 33)]⟩ "Ahri").1 none
      ⟨some [⟨33, autoPageName "Ahri"⟩], fun _ => some [], none⟩ "Ahri").2.2 =
      ApplyStep.put 33 (autoPageName "Ahri") := by
  have h := c4_create_then_update ⟨[("Ahri", presetNine)], none⟩
    ⟨some [], fun _ => none, some [("id", 33)]⟩
    ⟨some [⟨33, autoPageName "Ahri"⟩], fun _ => some [], none⟩ "Ahri"
    presetNine 33 [("id", 33)]
    (by decide) (by decide) (by decide) (by decide) (by decide) rfl (by decide) (by decide)
  exact ⟨h.2.2.1, h.2.2.2⟩

/-- C6 (amended): on the update path apply returns true iff the PUT response
is non-null; on the create path it returns true iff the POST response is a
non-null, non-empty object containing an "id" field. A null response on
either path makes apply return false. -/
theorem c6_success_condition (rm : RMState) (fo : Option RuneSetup) (r : Remote)
    (champ : String) (setup : RuneSetup)
    (hlk : rm.rune_data.lookup champ = some setup)
    (hps : setup.primary_style ≠ 0) (hss : setup.sub_style ≠ 0)
    (hlen : setup.selected_perks.length = 9) :
    (∀ p0 rest, r.getPagesResp.getD [] = p0 :: rest →
      ((apply_runes_for_champion rm fo r champ).2.1 = true ↔
        r.putResp (((p0 :: rest).find? (fun p => strStartsWith p.name "[AUTO]")).getD p0).id ≠
          none)) ∧
    (r.getPagesResp.getD [] = [] →
      ((apply_runes_for_champion rm fo r champ).2.1 = true ↔
        ∃ j, r.postResp = some j ∧ (j.lookup "id").isSome = true)) := by
  constructor
  · intro p0 rest hpages
    rw [apply_pages_nonempty rm fo r champ setup p0 rest hlk hps hss hlen hpages]
    simp [Option.isSome_iff_ne_none]
  · intro hpages
    rw [apply_pages_empty rm fo r champ setup hlk hps hss hlen hpages]
    cases hpost : r.postResp with
    | none =>
      dsimp only
      simp
    | some j =>
      dsimp only
      constructor
      · intro h
        refine ⟨j, rfl, ?_⟩
        by_cases hc : ((j != []) && (j.lookup "id").isSome) = true
        · rw [Bool.and_eq_true] at hc
          exact hc.2
        · rw [if_neg hc] at h
          cases h
      · rintro ⟨j', hj', hid⟩
        have hjj : j = j' := by injection hj'
        subst hjj
        have hjne : (j != []) = true := by
          cases j with
          | nil => simp at hid
          | cons a l => rfl
        rw [if_pos (show ((j != []) && (j.lookup "id").isSome) = true by simp [hjne, hid])]

theorem c6_witness :
    (apply_runes_for_champion ⟨[("Ahri", presetNine)], none⟩ none
      ⟨some [], fun _ => none, some [("id", 33)]⟩ "Ahri").2.1 = true :=
  ((c6_success_condition ⟨[("Ahri", presetNine)], none⟩ none
      ⟨some [], fun _ => none, some [("id", 33)]⟩ "Ahri" presetNine
      (by decide) (by decide) (by decide) (by decide)).2 rfl).mpr
    ⟨[("id", 33)], rfl, by decide⟩

/-- C6 counterexample: with valid cached data, an empty pages list and a
non-null create response `{}` (an empty object), apply returns false, so
"returns true iff the Connector returns a non-null response for the chosen
path" fails on the create path. -/
theorem c6_counterexample :
    ¬(((apply_runes_for_champion ⟨[("Ahri", presetNine)], none⟩ none
        ⟨some [], fun _ => none, some []⟩ "Ahri").2.1 = true) ↔
      ((⟨some [], fun _ => none, some []⟩ : Remote).postResp ≠ none)) := by
  decide

/-! ### Claim theorems: connector request -/

/-- C8: when the request is actually issued (connected, or discovery
succeeds), a 404 yields null with the connected flag intact; an error
status or transport failure clears the connected flag and yields null; and
a request never makes more than one HTTP call (no internal retry). -/
theorem c8_request_semantics (connected discoverOk : Bool) (o : HttpOutcome)
    (hcd : (connected || discoverOk) = true) :
    ((LCUrequest connected discoverOk HttpOutcome.notFound).result = none ∧
      (LCUrequest connected discoverOk HttpOutcome.notFound).connected = true) ∧
    ((o = HttpOutcome.errorStatus ∨ o = HttpOutcome.transportFail) →
      (LCUrequest connected discoverOk o).connected = false ∧
      (LCUrequest connected discoverOk o).result = none) ∧
    (∀ o', (LCUrequest connected discoverOk o').callsMade ≤ 1) := by
  have hc : (!connected && !discoverOk) = false := by
    cases connected <;> cases discoverOk <;> simp_all
  refine ⟨?_, ?_, ?_⟩
  · simp [LCUrequest, hc]
  · rintro (rfl | rfl) <;> simp [LCUrequest, hc]
  · intro o'
    cases o' <;> simp [LCUrequest, hc]

theorem c8_witness :
    (LCUrequest true true HttpOutcome.notFound).result = none ∧
    (LCUrequest true true HttpOutcome.notFound).connected = true :=
  (c8_request_semantics true true HttpOutcome.notFound (by decide)).1

/-! ### Helper lemmas about the selection monitor -/

lemma mkRun_champ (env : ApplyEnv) (cn : String) (aid : Nat) :
    (mkRun env cn aid).champ = cn := by
  by_cases h1 : env.applyOk cn <;> by_cases h2 : env.fetchOk cn <;> simp [mkRun, h1, h2]

lemma mkRun_aid (env : ApplyEnv) (cn : String) (aid : Nat) :
    (mkRun env cn aid).aid = aid := by
  by_cases h1 : env.applyOk cn <;> by_cases h2 : env.fetchOk cn <;> simp [mkRun, h1, h2]

lemma on_champion_locked_not_mem (env : ApplyEnv) (s : MonState) (cn : String) (aid : Nat)
    (h : s.processed_action_ids.contains aid = false) :
    on_champion_locked env s cn aid =
      (MonState.mk s.current_champion s.current_phase (aid :: s.processed_action_ids),
        some (mkRun env cn aid)) := by
  rw [on_champion_locked]
  rw [h]
  by_cases h1 : env.applyOk cn <;> by_cases h2 : env.fetchOk cn <;> simp [mkRun, h1, h2]

lemma afterPhase_lock (lcu : LcuEnv) (env : ApplyEnv) (s : MonState) (d : SessionData)
    (sid cell cid aid : Nat) (cn : String)
    (hsum : lcu.currentSummoner = some sid)
    (hcn : lcu.championName cid = some cn) (hcn' : cn ≠ "") (hcid : cid ≠ 0)
    (hteam : d.myTeam = [⟨sid, cell⟩])
    (hacts : d.actions = [[⟨cell, cid, aid, true⟩]])
    (hphase : pyTruthyStr s.current_phase = true) :
    afterPhase lcu env s (some d) =
      if s.current_champion = some cn then
        (if s.processed_action_ids.contains aid = true then (s, [])
         else (MonState.mk s.current_champion s.current_phase (aid :: s.processed_action_ids),
           [mkRun env cn aid]))
      else (MonState.mk (some cn) s.current_phase [aid], [mkRun env cn aid]) := by
  have hcid' : (cid == 0) = false := beq_eq_false_iff_ne.mpr hcid
  have hcn'' : (cn == "") = false := beq_eq_false_iff_ne.mpr hcn'
  rw [afterPhase, hphase, hsum, hteam, hacts]
  simp only [Bool.not_true, Bool.false_eq_true, if_false, List.find?_cons_of_pos,
    beq_self_eq_true, List.flatten_cons, List.flatten_nil, List.append_nil,
    List.nil_append]
  rw [processActions]
  simp only [beq_self_eq_true, if_true, hcid', Bool.false_eq_true, if_false, hcn, hcn'']
  by_cases hcc : s.current_champion = some cn
  · have hbeq : ((some cn : Option String) == s.current_champion) = true :=
      beq_iff_eq.mpr hcc.symm
    rw [if_pos hcc]
    simp only [hbeq, Bool.not_true, Bool.false_eq_true, if_false]
    by_cases hmem : s.processed_action_ids.contains aid = true
    · rw [if_pos hmem]
      have hmemM : aid ∈ s.processed_action_ids := by simpa using hmem
      simp [hmem, hmemM, processActions]
    · have hmem' : s.processed_action_ids.contains aid = false := by
        simpa using hmem
      rw [if_neg hmem]
      simp only [hmem', Bool.not_false, Bool.true_and, Bool.and_self, if_true]
      rw [on_champion_locked_not_mem env s cn aid hmem']
      simp [processActions]
  · have hbeq : ((some cn : Option String) == s.current_champion) = false :=
      beq_eq_false_iff_ne.mpr (fun h => hcc h.symm)
    rw [if_neg hcc]
    simp only [hbeq, Bool.not_false, if_true]
    have hmem0 : (([] : List Nat).contains aid) = false := rfl
    rw [on_champion_locked_not_mem env (MonState.mk (some cn) s.current_phase []) cn aid hmem0]
    simp [processActions]

lemma handle_lock (lcu : LcuEnv) (env : ApplyEnv) (s : MonState) (p : String)
    (sid cell cid aid : Nat) (cn : String)
    (hsum : lcu.currentSummoner = some sid)
    (hcn : lcu.championName cid = some cn) (hcn' : cn ≠ "") (hcid : cid ≠ 0)
    (hp : p ≠ "None") (hp' : p ≠ "") :
    handle_ws_message lcu env s (lockMsg p sid cell cid aid) =
      if s.current_champion = some cn then
        (if s.processed_action_ids.contains aid = true then
          (MonState.mk s.current_champion (some p) s.processed_action_ids, [])
        else
          (MonState.mk s.current_champion (some p) (aid :: s.processed_action_ids),
            [mkRun env cn aid]))
      else (MonState.mk (some cn) (some p) [aid], [mkRun env cn aid]) := by
  have huri : ((sessionUri == "/lol-champ-select/v1/session") : Bool) = true := by decide
  have hpt : pyTruthyStr (some p) = true := by
    simp [pyTruthyStr, hp']
  have hpn : ((some p : Option String) == some "None") = false :=
    beq_eq_false_iff_ne.mpr (by simpa using hp)
  rw [lockMsg, handle_ws_message, huri]
  simp only [Bool.not_true, Bool.false_eq_true, if_false, Option.some_bind]
  by_cases hpc : s.current_phase = some p
  · have hbeq : ((some p : Option String) == s.current_phase) = true := beq_iff_eq.mpr hpc.symm
    simp only [hbeq, Bool.not_true, Bool.and_false, Bool.false_eq_true, if_false, hpt]
    have hs : s = MonState.mk s.current_champion (some p) s.processed_action_ids := by
      cases s
      simp_all
    rw [afterPhase_lock lcu env s _ sid cell cid aid cn hsum hcn hcn' hcid rfl rfl
      (by rw [hpc]; exact hpt)]
    rw [hpc]
    by_cases hcc : s.current_champion = some cn
    · rw [if_pos hcc, if_pos hcc]
      by_cases hmem : s.processed_action_ids.contains aid = true
      · rw [if_pos hmem, if_pos hmem]
        exact congrArg (fun z => (z, ([] : List HandlerRun))) hs
      · rw [if_neg hmem, if_neg hmem]
    · rw [if_neg hcc, if_neg hcc]
  · have hbeq : ((some p : Option String) == s.current_phase) = false :=
      beq_eq_false_iff_ne.mpr (fun h => hpc h.symm)
    simp only [hbeq, Bool.not_false, Bool.and_true, hpt, if_true, hpn, Bool.false_eq_true,
      if_false]
    rw [afterPhase_lock lcu env (MonState.mk s.current_champion (some p) s.processed_action_ids)
      _ sid cell cid aid cn hsum hcn hcn' hcid rfl rfl hpt]

lemma processMessages_locked (lcu : LcuEnv) (env : ApplyEnv)
    (sid cell cid aid : Nat) (cn : String)
    (hsum : lcu.currentSummoner = some sid)
    (hcn : lcu.championName cid = some cn) (hcn' : cn ≠ "") (hcid : cid ≠ 0)
    (ms : List WsMessage)
    (hms : ∀ m ∈ ms, ∃ p, p ≠ "None" ∧ p ≠ "" ∧ m = lockMsg p sid cell cid aid) :
    ∀ s : MonState, s.current_champion = some cn →
      s.processed_action_ids.contains aid = true →
      (processMessages lcu env s ms).2 = [] ∧
      (processMessages lcu env s ms).1.current_champion = some cn ∧
      (processMessages lcu env s ms).1.processed_action_ids = s.processed_action_ids := by
  induction ms with
  | nil =>
    intro s h1 h2
    exact ⟨rfl, h1, rfl⟩
  | cons m rest ih =>
    intro s h1 h2
    obtain ⟨p, hp, hp', rfl⟩ := hms m (by simp)
    have hstep := handle_lock lcu env s p sid cell cid aid cn hsum hcn hcn' hcid hp hp'
    rw [if_pos h1, if_pos h2] at hstep
    have hrest := ih (fun m hm => hms m (List.mem_cons_of_mem _ hm))
      (MonState.mk s.current_champion (some p) s.processed_action_ids) h1 h2
    rw [processMessages, hstep]
    simpa using hrest

/-! ### Claim theorems: selection monitor -/

/-- C1: over any sequence of in-session lock events for one unchanged
champion that repeat the same completed action id (two or more deliveries),
the apply trigger fires exactly once for that action id; and with the
processed-id set emptied (everything else unchanged) the same event fires
the trigger again, so set membership is the sole blocking mechanism. -/
theorem c1_exact_once_per_action (lcu : LcuEnv) (env : ApplyEnv)
    (sid cell cid aid : Nat) (cn : String)
    (hsum : lcu.currentSummoner = some sid)
    (hcn : lcu.championName cid = some cn) (hcn' : cn ≠ "") (hcid : cid ≠ 0)
    (ms : List WsMessage)
    (hms : ∀ m ∈ ms, ∃ p, p ≠ "None" ∧ p ≠ "" ∧ m = lockMsg p sid cell cid aid)
    (hne : ms ≠ []) :
    (processMessages lcu env initMonState ms).2.map (fun h => (h.champ, h.aid)) = [(cn, aid)] ∧
    (processMessages lcu env initMonState ms).1.current_champion = some cn ∧
    (processMessages lcu env initMonState ms).1.processed_action_ids = [aid] ∧
    (∀ p, p ≠ "None" → p ≠ "" →
      (handle_ws_message lcu env
        (MonState.mk (processMessages lcu env initMonState ms).1.current_champion
          (processMessages lcu env initMonState ms).1.current_phase [])
        (lockMsg p sid cell cid aid)).2.map (fun h => (h.champ, h.aid)) = [(cn, aid)]) := by
  obtain ⟨m0, rest, rfl⟩ : ∃ m0 rest, ms = m0 :: rest := by
    cases ms with
    | nil => exact absurd rfl hne
    | cons a l => exact ⟨a, l, rfl⟩
  obtain ⟨p0, hp0, hp0', rfl⟩ := hms m0 (List.mem_cons_self _ _)
  have hstep := handle_lock lcu env initMonState p0 sid cell cid aid cn hsum hcn hcn' hcid
    hp0 hp0'
  rw [if_neg (by simp [initMonState])] at hstep
  have hrest := processMessages_locked lcu env sid cell cid aid cn hsum hcn hcn' hcid rest
    (fun m hm => hms m (List.mem_cons_of_mem _ hm))
    (MonState.mk (some cn) (some p0) [aid]) rfl (by simp)
  have hfull : processMessages lcu env initMonState (lockMsg p0 sid cell cid aid :: rest) =
      ((processMessages lcu env (MonState.mk (some cn) (some p0) [aid]) rest).1,
        [mkRun env cn aid] ++
          (processMessages lcu env (MonState.mk (some cn) (some p0) [aid]) rest).2) := by
    rw [processMessages, hstep]
  rw [hfull]
  rw [hrest.1]
  refine ⟨by simp [mkRun_champ, mkRun_aid], hrest.2.1, hrest.2.2, ?_⟩
  intro p hp hp'
  have hstep2 := handle_lock lcu env
    (MonState.mk (processMessages lcu env (MonState.mk (some cn) (some p0) [aid]) rest).1.current_champion
      (processMessages lcu env (MonState.mk (some cn) (some p0) [aid]) rest).1.current_phase [])
    p sid cell cid aid cn hsum hcn hcn' hcid hp hp'
  rw [if_pos (by simpa using hrest.2.1)] at hstep2
  rw [if_neg (by simp)] at hstep2
  rw [hstep2]
  simp [mkRun_champ, mkRun_aid]

theorem c1_witness :
    (processMessages lcuW envW initMonState
      [lockMsg "BAN_PICK" 1 3 42 7, lockMsg "BAN_PICK" 1 3 42 7]).2.map
        (fun h => (h.champ, h.aid)) = [("Ahri", 7)] :=
  (c1_exact_once_per_action lcuW envW 1 3 42 7 "Ahri" rfl rfl (by decide) (by decide)
    [lockMsg "BAN_PICK" 1 3 42 7, lockMsg "BAN_PICK" 1 3 42 7]
    (by
      intro m hm
      have hm' : m = lockMsg "BAN_PICK" 1 3 42 7 := by
        simpa using hm
      exact ⟨"BAN_PICK", by decide, by decide, hm'⟩)
    (by simp)).1

/-- C3: an observed phase-field change to the terminal "None" phase clears
the current champion and the processed-action-id set (and produces no
trigger); afterwards a lock event reusing a previously processed action id
fires the trigger again. -/
theorem c3_phase_none_resets (lcu : LcuEnv) (env : ApplyEnv) (s : MonState) (d : SessionData)
    (sid cell cid aid : Nat) (cn : String) (p : String)
    (hph : d.phase = some "None") (hcur : s.current_phase ≠ some "None")
    (hprev : s.processed_action_ids.contains aid = true)
    (hsum : lcu.currentSummoner = some sid)
    (hcn : lcu.championName cid = some cn) (hcn' : cn ≠ "") (hcid : cid ≠ 0)
    (hp : p ≠ "None") (hp' : p ≠ "") :
    (handle_ws_message lcu env s (WsMessage.event sessionUri (some d))).1 =
      MonState.mk none (some "None") [] ∧
    (handle_ws_message lcu env s (WsMessage.event sessionUri (some d))).2 = [] ∧
    (handle_ws_message lcu env (MonState.mk none (some "None") [])
      (lockMsg p sid cell cid aid)).2.map (fun h => (h.champ, h.aid)) = [(cn, aid)] := by
  have huri : ((sessionUri == "/lol-champ-select/v1/session") : Bool) = true := by decide
  have hreset : handle_ws_message lcu env s (WsMessage.event sessionUri (some d)) =
      (MonState.mk none (some "None") [], []) := by
    rw [handle_ws_message, huri]
    simp only [Bool.not_true, Bool.false_eq_true, if_false, Option.some_bind, hph]
    have h1 : pyTruthyStr (some "None") = true := by decide
    have h2 : ((some "None" : Option String) == s.current_phase) = false :=
      beq_eq_false_iff_ne.mpr (fun h => hcur h.symm)
    simp [h1, h2]
  refine ⟨by rw [hreset], by rw [hreset], ?_⟩
  have hstep := handle_lock lcu env (MonState.mk none (some "None") []) p sid cell cid aid cn
    hsum hcn hcn' hcid hp hp'
  rw [if_neg (by simp)] at hstep
  rw [hstep]
  simp [mkRun_champ, mkRun_aid]

theorem c3_witness :
    (handle_ws_message lcuW envW (MonState.mk (some "Ahri") (some "BAN_PICK") [7])
      (WsMessage.event sessionUri (some ⟨some "None", [], []⟩))).1 =
      MonState.mk none (some "None") [] ∧
    (handle_ws_message lcuW envW (MonState.mk none (some "None") [])
      (lockMsg "BAN_PICK" 1 3 42 7)).2.map (fun h => (h.champ, h.aid)) = [("Ahri", 7)] := by
  have h := c3_phase_none_resets lcuW envW (MonState.mk (some "Ahri") (some "BAN_PICK") [7])
    ⟨some "None", [], []⟩ 1 3 42 7 "Ahri" "BAN_PICK" rfl (by decide) (by decide) rfl rfl
    (by decide) (by decide) (by decide) (by decide)
  exact ⟨h.1, h.2.2⟩

/-- C10: the handler records the action id before attempting to apply, so
even when every apply (and re-fetch) attempt fails, later deliveries of the
same completed action id never re-invoke the apply path while the champion
is unchanged; a champion change clears the set and re-enables the same id. -/
theorem c10_failed_apply_consumes (lcu : LcuEnv) (env : ApplyEnv)
    (sid cell cid aid : Nat) (cn : String) (p0 : String)
    (hsum : lcu.currentSummoner = some sid)
    (hcn : lcu.championName cid = some cn) (hcn' : cn ≠ "") (hcid : cid ≠ 0)
    (hfail : env.applyOk cn = false)
    (hp0 : p0 ≠ "None") (hp0' : p0 ≠ "")
    (ms : List WsMessage)
    (hms : ∀ m ∈ ms, ∃ p, p ≠ "None" ∧ p ≠ "" ∧ m = lockMsg p sid cell cid aid) :
    (processMessages lcu env initMonState
      (lockMsg p0 sid cell cid aid :: ms)).2.map (fun h => (h.champ, h.aid)) = [(cn, aid)] ∧
    (processMessages lcu env initMonState
      (lockMsg p0 sid cell cid aid :: ms)).1.processed_action_ids.contains aid = true ∧
    (∀ cid' cn', lcu.championName cid' = some cn' → cn' ≠ cn → cn' ≠ "" → cid' ≠ 0 →
      ∀ p, p ≠ "None" → p ≠ "" →
      (handle_ws_message lcu env (processMessages lcu env initMonState
          (lockMsg p0 sid cell cid aid :: ms)).1
        (lockMsg p sid cell cid' aid)).2.map (fun h => (h.champ, h.aid)) = [(cn', aid)]) := by
  have hstep := handle_lock lcu env initMonState p0 sid cell cid aid cn hsum hcn hcn' hcid
    hp0 hp0'
  rw [if_neg (by simp [initMonState])] at hstep
  have hrest := processMessages_locked lcu env sid cell cid aid cn hsum hcn hcn' hcid ms hms
    (MonState.mk (some cn) (some p0) [aid]) rfl (by simp)
  have hfull : processMessages lcu env initMonState (lockMsg p0 sid cell cid aid :: ms) =
      ((processMessages lcu env (MonState.mk (some cn) (some p0) [aid]) ms).1,
        [mkRun env cn aid] ++
          (processMessages lcu env (MonState.mk (some cn) (some p0) [aid]) ms).2) := by
    rw [processMessages, hstep]
  rw [hfull, hrest.1]
  refine ⟨by simp [mkRun_champ, mkRun_aid], by rw [hrest.2.2]; simp, ?_⟩
  intro cid' cn' hcn2 hne2 hcn2' hcid2 p hp hp'
  have hstep2 := handle_lock lcu env
    (processMessages lcu env (MonState.mk (some cn) (some p0) [aid]) ms).1
    p sid cell cid' aid cn' hsum hcn2 hcn2' hcid2 hp hp'
  rw [if_neg (by rw [hrest.2.1]; intro h; exact hne2 (Option.some.inj h).symm)] at hstep2
  rw [hstep2]
  simp [mkRun_champ, mkRun_aid]

theorem c10_witness :
    (processMessages lcuW envWF initMonState
      [lockMsg "BAN_PICK" 1 3 42 7, lockMsg "BAN_PICK" 1 3 42 7]).2.map
        (fun h => (h.champ, h.aid)) = [("Ahri", 7)] ∧
    (processMessages lcuW envWF initMonState
      [lockMsg "BAN_PICK" 1 3 42 7, lockMsg "BAN_PICK" 1 3 42 7]).1.processed_action_ids.contains
        7 = true := by
  have h := c10_failed_apply_consumes lcuW envWF 1 3 42 7 "Ahri" "BAN_PICK" rfl rfl
    (by decide) (by decide) rfl (by decide) (by decide)
    [lockMsg "BAN_PICK" 1 3 42 7]
    (by
      intro m hm
      have hm' : m = lockMsg "BAN_PICK" 1 3 42 7 := by
        simpa using hm
      exact ⟨"BAN_PICK", by decide, by decide, hm'⟩)
  exact ⟨h.1, h.2.1⟩
